import Mathlib

/-!
Verification of the CartAPI shopping-cart service core.

This file is a shallow embedding of the request-to-storage pipeline of
the CartAPI repository:
- the data model (internal/models/models.go),
- the storage layer (internal/database/psql/psql.go) over the join-table
  schema (tables cart, item, cart_item used by psql.go),
- the service layer (internal/service/cart/cart.go, the variant with the
  shared helpers handleContextError / handleDatabaseError),
- the handler layer (internal/handlers/cart/cart.go, the variant with
  parseCartID and handleServiceError),
- the URL path parser (pkg/lib/urlparser/split.go).

Go contexts are modelled by their observable status at the check points
(ctx.Err() is nil, context.Canceled, or context.DeadlineExceeded).
Go errors are modelled by the set of sentinel errors their unwrap chain
matches (the observable behaviour of errors.Is).  Database statements
that can fail for driver-level reasons take an explicit failure
injection.  Every operation returns, besides its result, the final
committed database state and the trace of statements it issued.
-/

set_option maxHeartbeats 1000000
set_option maxRecDepth 4096

/-- CartItem from internal/models/models.go. -/
structure CartItem where
  id : Int
  cartId : Int
  product : String
  quantity : Int
deriving Repr, DecidableEq

/-- Cart from internal/models/models.go. -/
structure Cart where
  id : Int
  items : List CartItem
deriving Repr, DecidableEq

/-- A row of the item table (join-table schema: id SERIAL, product, quantity). -/
structure ItemRow where
  id : Int
  product : String
  quantity : Int
deriving Repr, DecidableEq

/-- A row of the cart_item link table (cart_id, item_id). -/
structure LinkRow where
  cart_id : Int
  item_id : Int
deriving Repr, DecidableEq

/-- The relational state seen by psql.go: the cart table (just ids),
the item table, the cart_item link table, and the two SERIAL sequences.
Sequences are not transactional in PostgreSQL, so a rolled-back insert
still advances nextItemId. -/
structure DB where
  carts : List Int
  items : List ItemRow
  links : List LinkRow
  nextCartId : Int
  nextItemId : Int
deriving Repr, DecidableEq

/-- Observable status of a Go context at a check point. -/
inductive Ctx where
  | ok
  | canceled
  | deadlineExceeded
deriving Repr, DecidableEq

/-- Sentinel errors that errors.Is is asked about anywhere in the layers:
context.Canceled, context.DeadlineExceeded, databaseerrors.ErrNotFound,
and opaque driver errors carrying only a message. -/
inductive Sentinel where
  | canceled
  | deadlineExceeded
  | dbNotFound
  | other (msg : String)
deriving Repr, DecidableEq

/-- A Go error, modelled by the sentinels its unwrap chain matches. -/
abbrev GoErr := List Sentinel

/-- errors.Is: does the unwrap chain of e match sentinel s. -/
def errIs (e : GoErr) (s : Sentinel) : Prop := s ∈ e

instance (e : GoErr) (s : Sentinel) : Decidable (errIs e s) :=
  inferInstanceAs (Decidable (s ∈ e))

/-- SQL statements (and transaction control commands) issued by psql.go. -/
inductive Stmt where
  | begin
  | commit
  | rollback
  | insertCart
  | selectCartExists
  | insertItem
  | insertLink
  | selectItemExists
  | deleteLink
  | deleteItem
  | selectCartItems
deriving Repr, DecidableEq

/-- Injected driver-level failures for each fallible database call. -/
structure Failures where
  beginFails : Bool
  cartCheckFails : Bool
  insertItemFails : Bool
  insertLinkFails : Bool
  itemCheckFails : Bool
  deleteLinkFails : Bool
  deleteItemFails : Bool
  commitFails : Bool
  createCartFails : Bool
  viewQueryFails : Bool
deriving Repr, DecidableEq

/-- The healthy run: no driver-level failure is injected. -/
def noFailures : Failures :=
  ⟨false, false, false, false, false, false, false, false, false, false⟩

deriving instance DecidableEq for Except

/-- Outcome of a storage operation: the Go return value, the committed
database state after the call, and the statements issued. -/
structure OpResult (α : Type) where
  result : Except GoErr α
  db : DB
  stmts : List Stmt
deriving Repr, DecidableEq

/-- Storage.CreateCart (psql.go lines 58-81): checks ctx.Done() at entry,
then INSERT INTO cart DEFAULT VALUES RETURNING id. -/
def Storage.CreateCart (ctx : Ctx) (db : DB) (fl : Failures) : OpResult Cart :=
  match ctx with
  | .canceled => ⟨.error [.canceled], db, []⟩
  | .deadlineExceeded => ⟨.error [.deadlineExceeded], db, []⟩
  | .ok =>
    if fl.createCartFails then
      ⟨.error [.other "insert cart failed"], db, [.insertCart]⟩
    else
      ⟨.ok ⟨db.nextCartId, []⟩,
        { db with carts := db.carts ++ [db.nextCartId], nextCartId := db.nextCartId + 1 },
        [.insertCart]⟩

/-- Storage.AddToCart (psql.go lines 83-157): ctx check; Beginx;
SELECT id FROM cart WHERE id=$1 (sql.ErrNoRows maps to ErrNotFound);
INSERT INTO item (product, quantity) RETURNING id;
INSERT INTO cart_item (cart_id, item_id); Commit.  The deferred
tx.Rollback() makes every error exit after a successful begin restore
the pre-call row state (the item sequence, being non-transactional,
stays advanced once the item insert succeeded). -/
def Storage.AddToCart (ctx : Ctx) (db : DB) (fl : Failures)
    (cartId : Int) (item : CartItem) : OpResult CartItem :=
  match ctx with
  | .canceled => ⟨.error [.canceled], db, []⟩
  | .deadlineExceeded => ⟨.error [.deadlineExceeded], db, []⟩
  | .ok =>
    if fl.beginFails then
      ⟨.error [.other "begin failed"], db, [.begin]⟩
    else if fl.cartCheckFails then
      ⟨.error [.other "cart check failed"], db, [.begin, .selectCartExists, .rollback]⟩
    else if cartId ∈ db.carts then
      if fl.insertItemFails then
        ⟨.error [.other "insert item failed"], db,
          [.begin, .selectCartExists, .insertItem, .rollback]⟩
      else if fl.insertLinkFails then
        ⟨.error [.other "insert link failed"],
          { db with nextItemId := db.nextItemId + 1 },
          [.begin, .selectCartExists, .insertItem, .insertLink, .rollback]⟩
      else if fl.commitFails then
        ⟨.error [.other "commit failed"],
          { db with nextItemId := db.nextItemId + 1 },
          [.begin, .selectCartExists, .insertItem, .insertLink, .commit]⟩
      else
        ⟨.ok ⟨db.nextItemId, cartId, item.product, item.quantity⟩,
          { db with
              items := db.items ++ [⟨db.nextItemId, item.product, item.quantity⟩],
              links := db.links ++ [⟨cartId, db.nextItemId⟩],
              nextItemId := db.nextItemId + 1 },
          [.begin, .selectCartExists, .insertItem, .insertLink, .commit]⟩
    else
      ⟨.error [.dbNotFound], db, [.begin, .selectCartExists, .rollback]⟩

/-- Storage.RemoveFromCart (psql.go lines 159-240): ctx check; Beginx;
SELECT id FROM cart WHERE id=$1 (no rows maps to ErrNotFound);
SELECT id FROM item WHERE id=$1 (no rows maps to ErrNotFound — only the
item's own existence is checked, its owning cart is never consulted);
DELETE FROM cart_item WHERE cart_id=$1 AND item_id=$2;
DELETE FROM item WHERE id=$1; Commit. -/
def Storage.RemoveFromCart (ctx : Ctx) (db : DB) (fl : Failures)
    (cartId : Int) (itemId : Int) : OpResult Unit :=
  match ctx with
  | .canceled => ⟨.error [.canceled], db, []⟩
  | .deadlineExceeded => ⟨.error [.deadlineExceeded], db, []⟩
  | .ok =>
    if fl.beginFails then
      ⟨.error [.other "begin failed"], db, [.begin]⟩
    else if fl.cartCheckFails then
      ⟨.error [.other "cart check failed"], db, [.begin, .selectCartExists, .rollback]⟩
    else if cartId ∈ db.carts then
      if fl.itemCheckFails then
        ⟨.error [.other "item check failed"], db,
          [.begin, .selectCartExists, .selectItemExists, .rollback]⟩
      else if db.items.any (fun r => r.id == itemId) then
        if fl.deleteLinkFails then
          ⟨.error [.other "delete link failed"], db,
            [.begin, .selectCartExists, .selectItemExists, .deleteLink, .rollback]⟩
        else if fl.deleteItemFails then
          ⟨.error [.other "delete item failed"], db,
            [.begin, .selectCartExists, .selectItemExists, .deleteLink, .deleteItem, .rollback]⟩
        else if fl.commitFails then
          ⟨.error [.other "commit failed"], db,
            [.begin, .selectCartExists, .selectItemExists, .deleteLink, .deleteItem, .commit]⟩
        else
          ⟨.ok (),
            { db with
                links := db.links.filter
                  (fun l => !(l.cart_id == cartId && l.item_id == itemId)),
                items := db.items.filter (fun r => !(r.id == itemId)) },
            [.begin, .selectCartExists, .selectItemExists, .deleteLink, .deleteItem, .commit]⟩
      else
        ⟨.error [.dbNotFound], db,
          [.begin, .selectCartExists, .selectItemExists, .rollback]⟩
    else
      ⟨.error [.dbNotFound], db, [.begin, .selectCartExists, .rollback]⟩

/-- The rows returned by ViewCart's join:
SELECT ci.item_id, ci.cart_id, i.product, i.quantity FROM cart_item ci
JOIN item i ON ci.item_id = i.id WHERE ci.cart_id=$1. -/
def viewItems (db : DB) (cartId : Int) : List CartItem :=
  (db.links.filter (fun l => l.cart_id == cartId)).filterMap
    (fun l => (db.items.find? (fun r => r.id == l.item_id)).map
      (fun r => ⟨l.item_id, l.cart_id, r.product, r.quantity⟩))

/-- Storage.ViewCart (psql.go lines 242-282): ctx check, then a single
join query over cart_item and item; there is no cart-existence check,
and the cart is returned with whatever items matched (possibly none). -/
def Storage.ViewCart (ctx : Ctx) (db : DB) (fl : Failures) (cartId : Int) : OpResult Cart :=
  match ctx with
  | .canceled => ⟨.error [.canceled], db, []⟩
  | .deadlineExceeded => ⟨.error [.deadlineExceeded], db, []⟩
  | .ok =>
    if fl.viewQueryFails then
      ⟨.error [.other "view query failed"], db, [.selectCartItems]⟩
    else
      ⟨.ok ⟨cartId, viewItems db cartId⟩, db, [.selectCartItems]⟩

/-- Service-level error kinds (internal/service/errors.go sentinels
ErrContextCanceled, ErrDeadlineExceeded, ErrNotFound), plus generic
storage errors passed through unchanged. -/
inductive ServiceErrKind where
  | contextCanceled
  | deadlineExceeded
  | notFound
  | passthrough (e : GoErr)
deriving Repr, DecidableEq

/-- A service error: fmt.Errorf ties the operation tag to the kind. -/
abbrev ServiceErr := String × ServiceErrKind

/-- handleContextError (service/cart/cart.go lines 296-308): classifies
ctx.Err() when ctx.Done() fired before the storage call. -/
def handleContextError (ctx : Ctx) : Option ServiceErrKind :=
  match ctx with
  | .ok => none
  | .canceled => some .contextCanceled
  | .deadlineExceeded => some .deadlineExceeded

/-- handleDatabaseError (service/cart/cart.go lines 310-324): classifies
a storage error by errors.Is in the fixed order canceled, deadline
exceeded, not-found, generic passthrough. -/
def handleDatabaseError (e : GoErr) : ServiceErrKind :=
  if errIs e .canceled then .contextCanceled
  else if errIs e .deadlineExceeded then .deadlineExceeded
  else if errIs e .dbNotFound then .notFound
  else .passthrough e

/-- Outcome of a service operation. -/
structure SvcResult (α : Type) where
  result : Except ServiceErr α
  db : DB
  stmts : List Stmt
deriving Repr, DecidableEq

/-- CartApiService.CreateCart (service/cart/cart.go lines 224-240):
ctx.Done() check via handleContextError, then the storage call with
errors classified by handleDatabaseError. -/
def CartApiService.CreateCart (ctx : Ctx) (db : DB) (fl : Failures) : SvcResult Cart :=
  match handleContextError ctx with
  | some k => ⟨.error ("service.cartapi.CreateCart", k), db, []⟩
  | none =>
    let r := Storage.CreateCart ctx db fl
    match r.result with
    | .error e => ⟨.error ("service.cartapi.CreateCart", handleDatabaseError e), r.db, r.stmts⟩
    | .ok v => ⟨.ok v, r.db, r.stmts⟩

/-- CartApiService.AddToCart (service/cart/cart.go lines 242-258). -/
def CartApiService.AddToCart (ctx : Ctx) (db : DB) (fl : Failures)
    (cartId : Int) (item : CartItem) : SvcResult CartItem :=
  match handleContextError ctx with
  | some k => ⟨.error ("service.cartapi.AddToCart", k), db, []⟩
  | none =>
    let r := Storage.AddToCart ctx db fl cartId item
    match r.result with
    | .error e => ⟨.error ("service.cartapi.AddToCart", handleDatabaseError e), r.db, r.stmts⟩
    | .ok v => ⟨.ok v, r.db, r.stmts⟩

/-- CartApiService.RemoveFromCart (service/cart/cart.go lines 260-276). -/
def CartApiService.RemoveFromCart (ctx : Ctx) (db : DB) (fl : Failures)
    (cartId : Int) (itemId : Int) : SvcResult Unit :=
  match handleContextError ctx with
  | some k => ⟨.error ("service.cartapi.RemoveFromCart", k), db, []⟩
  | none =>
    let r := Storage.RemoveFromCart ctx db fl cartId itemId
    match r.result with
    | .error e => ⟨.error ("service.cartapi.RemoveFromCart", handleDatabaseError e), r.db, r.stmts⟩
    | .ok v => ⟨.ok v, r.db, r.stmts⟩

/-- CartApiService.ViewCart (service/cart/cart.go lines 278-294). -/
def CartApiService.ViewCart (ctx : Ctx) (db : DB) (fl : Failures) (cartId : Int) : SvcResult Cart :=
  match handleContextError ctx with
  | some k => ⟨.error ("service.cartapi.ViewCart", k), db, []⟩
  | none =>
    let r := Storage.ViewCart ctx db fl cartId
    match r.result with
    | .error e => ⟨.error ("service.cartapi.ViewCart", handleDatabaseError e), r.db, r.stmts⟩
    | .ok v => ⟨.ok v, r.db, r.stmts⟩

/-- Digit run accumulator for strconv.Atoi. -/
def parseDigitsAux : List Char → Nat → Option Nat
  | [], acc => some acc
  | c :: rest, acc =>
    if c.isDigit then parseDigitsAux rest (acc * 10 + (c.toNat - 48)) else none

/-- A non-empty all-digit run parsed as a natural number. -/
def parseDigits (cs : List Char) : Option Nat :=
  match cs with
  | [] => none
  | _ => parseDigitsAux cs 0

/-- strconv.Atoi: optional single leading sign, then one or more digits,
value within the 64-bit signed range, otherwise an error. -/
def goAtoi (s : String) : Option Int :=
  match s.toList with
  | [] => none
  | c :: rest =>
    if c = '-' then
      match parseDigits rest with
      | none => none
      | some n => if (n : Int) ≤ 2 ^ 63 then some (-(n : Int)) else none
    else if c = '+' then
      match parseDigits rest with
      | none => none
      | some n => if (n : Int) ≤ 2 ^ 63 - 1 then some (n : Int) else none
    else
      match parseDigits (c :: rest) with
      | none => none
      | some n => if (n : Int) ≤ 2 ^ 63 - 1 then some (n : Int) else none

/-- parseCartID (handlers/cart/cart.go lines 179-188): strconv.Atoi and
a positivity check; any failure yields the fixed message. -/
def parseCartID (cartIdStr : String) : Except String Int :=
  match goAtoi cartIdStr with
  | none => .error "invalid cartId, must be a positive integer"
  | some id => if id ≤ 0 then .error "invalid cartId, must be a positive integer" else .ok id

/-- parseItemID (handlers/cart/cart.go lines 190-199). -/
def parseItemID (itemIdStr : String) : Except String Int :=
  match goAtoi itemIdStr with
  | none => .error "invalid itemId, must be a positive integer"
  | some id => if id ≤ 0 then .error "invalid itemId, must be a positive integer" else .ok id

/-- handleServiceError (handlers/cart/cart.go lines 163-177): the fixed
error-kind to HTTP-status mapping. -/
def handleServiceError (e : ServiceErr) : Nat :=
  match e.2 with
  | .contextCanceled => 499
  | .deadlineExceeded => 504
  | .notFound => 404
  | .passthrough _ => 500

/-- What a handler produced: the HTTP status, whether the service was
invoked, and the encoded response item if any. -/
structure HandlerResult where
  status : Nat
  calledService : Bool
  body : Option CartItem
deriving Repr, DecidableEq

/-- Handler.AddToCart (handlers/cart/cart.go lines 57-107).  The request
body is modelled by the outcome of io.ReadAll plus json.Unmarshal: none
for an unreadable, empty or invalid-JSON body, some item for a decoded
one.  The service is an abstract dependency, as in the Go interface. -/
def Handler.AddToCart (cartIdStr : String) (body : Option CartItem)
    (svc : Int → CartItem → Except ServiceErr CartItem) : HandlerResult :=
  match parseCartID cartIdStr with
  | .error _ => ⟨400, false, none⟩
  | .ok cartId =>
    match body with
    | none => ⟨400, false, none⟩
    | some item =>
      if item.product = "" then ⟨400, false, none⟩
      else if item.quantity ≤ 0 then ⟨400, false, none⟩
      else
        match svc cartId item with
        | .error e => ⟨handleServiceError e, true, none⟩
        | .ok inserted => ⟨201, true, some inserted⟩

/-- strings.Trim(path, "/"): strip leading and trailing slash runs. -/
def goTrimSlashes (s : String) : String :=
  ⟨(((s.toList.dropWhile (fun c => c = '/')).reverse.dropWhile (fun c => c = '/')).reverse)⟩

/-- Accumulating worker for strings.Split with separator "/". -/
def splitSlashAux : List Char → List Char → List String
  | [], acc => [⟨acc.reverse⟩]
  | c :: rest, acc =>
    if c = '/' then ⟨acc.reverse⟩ :: splitSlashAux rest []
    else splitSlashAux rest (c :: acc)

/-- strings.Split(s, "/"): the slash-separated segments of s. -/
def goSplitSlashes (s : String) : List String :=
  splitSlashAux s.toList []

/-- PathParams from pkg/lib/urlparser/split.go. -/
structure PathParams where
  CartId : Int
  ItemId : Int
deriving Repr, DecidableEq

/-- ParseCartPath (pkg/lib/urlparser/split.go lines 14-60): trims
slashes, splits on "/", and switches on the number of segments. -/
def ParseCartPath (path : String) : Except String PathParams :=
  match goSplitSlashes (goTrimSlashes path) with
  | [p0, p1] =>
    if p0 ≠ "carts" then .error "invalid path, expected /carts/\x7bcartId\x7d"
    else
      match goAtoi p1 with
      | none => .error "invalid cartId, must be int"
      | some cartId => .ok ⟨cartId, 0⟩
  | [p0, p1, p2] =>
    if p0 ≠ "carts" ∨ p2 ≠ "items" then
      .error "invalid path, expected /carts/\x7bcartId\x7d/items"
    else
      match goAtoi p1 with
      | none => .error "invalid cartId, must be int"
      | some cartId => .ok ⟨cartId, 0⟩
  | [p0, p1, p2, p3] =>
    if p0 ≠ "carts" ∨ p2 ≠ "items" then
      .error "invalid path, expected /carts/\x7bcartId\x7d/items/\x7bitemId\x7d"
    else
      match goAtoi p1 with
      | none => .error "invalid cartId, must be int"
      | some cartId =>
        match goAtoi p3 with
        | none => .error "invalid itemId, must be int"
        | some itemId => .ok ⟨cartId, itemId⟩
  | _ => .error "wrong url format"

/-- The state of a freshly migrated database: no rows, sequences at 1. -/
def dbEmpty : DB := ⟨[], [], [], 1, 1⟩

/-- A database holding one empty cart with id 1. -/
def dbOneCart : DB := ⟨[1], [], [], 2, 1⟩

/-- Two carts 1 and 9; item 2 exists and is linked to cart 9 only. -/
def dbCross : DB := ⟨[1, 9], [⟨2, "pear", 4⟩], [⟨9, 2⟩], 10, 3⟩

/-- The request item used in concrete runs. -/
def itemApple : CartItem := ⟨0, 0, "apple", 3⟩

/-- Failure injection making only the item insert of AddToCart fail. -/
def flItemInsertFail : Failures := { noFailures with insertItemFails := true }

/-- C1: AddToCart and RemoveFromCart on a cart id with no cart row fail
with the NotFound kind (never a generic error) on an otherwise healthy
run; ViewCart, however, performs no existence check: it runs only the
join query and returns a cart whose items are the linked rows, so on an
absent cart it succeeds with an empty item list instead of NotFound. -/
theorem c1_notfound_amended (db : DB) (cartId itemId : Int) (item : CartItem)
    (h : cartId ∉ db.carts) :
    (Storage.AddToCart .ok db noFailures cartId item).result = .error [.dbNotFound] ∧
    (Storage.RemoveFromCart .ok db noFailures cartId itemId).result = .error [.dbNotFound] ∧
    (Storage.ViewCart .ok db noFailures cartId).result = .ok ⟨cartId, viewItems db cartId⟩ := by
  refine ⟨?_, ?_, ?_⟩ <;>
    simp [Storage.AddToCart, Storage.RemoveFromCart, Storage.ViewCart, noFailures, h]

/-- C1 counterexample: cart 7 does not exist in the empty database, yet
ViewCart returns success with an empty cart rather than NotFound. -/
theorem c1_view_no_notfound :
    (7 ∈ dbEmpty.carts → False) ∧
    (Storage.ViewCart .ok dbEmpty noFailures 7).result = .ok ⟨7, []⟩ := by
  decide

/-- C1 witness: the amended statement at cart id 5 on the empty database. -/
theorem c1_notfound_witness :
    (Storage.AddToCart .ok dbEmpty noFailures 5 itemApple).result = .error [.dbNotFound] ∧
    (Storage.RemoveFromCart .ok dbEmpty noFailures 5 9).result = .error [.dbNotFound] ∧
    (Storage.ViewCart .ok dbEmpty noFailures 5).result = .ok ⟨5, viewItems dbEmpty 5⟩ :=
  c1_notfound_amended dbEmpty 5 9 itemApple (by decide)

/-- C3: each of the four operations, at both the storage layer and the
service layer, returns the Canceled kind on an already-canceled context
and the DeadlineExceeded kind on an already-expired deadline, issues no
database statement, and leaves the stored state unchanged. -/
theorem c3_context_check (db : DB) (fl : Failures) (cartId itemId : Int) (item : CartItem) :
    Storage.CreateCart .canceled db fl = ⟨.error [.canceled], db, []⟩ ∧
    Storage.AddToCart .canceled db fl cartId item = ⟨.error [.canceled], db, []⟩ ∧
    Storage.RemoveFromCart .canceled db fl cartId itemId = ⟨.error [.canceled], db, []⟩ ∧
    Storage.ViewCart .canceled db fl cartId = ⟨.error [.canceled], db, []⟩ ∧
    Storage.CreateCart .deadlineExceeded db fl = ⟨.error [.deadlineExceeded], db, []⟩ ∧
    Storage.AddToCart .deadlineExceeded db fl cartId item = ⟨.error [.deadlineExceeded], db, []⟩ ∧
    Storage.RemoveFromCart .deadlineExceeded db fl cartId itemId
      = ⟨.error [.deadlineExceeded], db, []⟩ ∧
    Storage.ViewCart .deadlineExceeded db fl cartId = ⟨.error [.deadlineExceeded], db, []⟩ ∧
    CartApiService.CreateCart .canceled db fl
      = ⟨.error ("service.cartapi.CreateCart", .contextCanceled), db, []⟩ ∧
    CartApiService.AddToCart .canceled db fl cartId item
      = ⟨.error ("service.cartapi.AddToCart", .contextCanceled), db, []⟩ ∧
    CartApiService.RemoveFromCart .canceled db fl cartId itemId
      = ⟨.error ("service.cartapi.RemoveFromCart", .contextCanceled), db, []⟩ ∧
    CartApiService.ViewCart .canceled db fl cartId
      = ⟨.error ("service.cartapi.ViewCart", .contextCanceled), db, []⟩ ∧
    CartApiService.CreateCart .deadlineExceeded db fl
      = ⟨.error ("service.cartapi.CreateCart", .deadlineExceeded), db, []⟩ ∧
    CartApiService.AddToCart .deadlineExceeded db fl cartId item
      = ⟨.error ("service.cartapi.AddToCart", .deadlineExceeded), db, []⟩ ∧
    CartApiService.RemoveFromCart .deadlineExceeded db fl cartId itemId
      = ⟨.error ("service.cartapi.RemoveFromCart", .deadlineExceeded), db, []⟩ ∧
    CartApiService.ViewCart .deadlineExceeded db fl cartId
      = ⟨.error ("service.cartapi.ViewCart", .deadlineExceeded), db, []⟩ :=
  ⟨rfl, rfl, rfl, rfl, rfl, rfl, rfl, rfl,
   rfl, rfl, rfl, rfl, rfl, rfl, rfl, rfl⟩

/-- C5: on an existing cart, with a non-empty product and a positive
quantity, AddToCart succeeds; the returned CartItem carries the freshly
assigned item id (new with respect to every stored item) and echoes the
cartId, product and quantity arguments. -/
theorem c5_add_success (db : DB) (cartId : Int) (item : CartItem)
    (hc : cartId ∈ db.carts) (hp : item.product ≠ "") (hq : 0 < item.quantity)
    (hfresh : ∀ r ∈ db.items, r.id < db.nextItemId) :
    (Storage.AddToCart .ok db noFailures cartId item).result =
      .ok ⟨db.nextItemId, cartId, item.product, item.quantity⟩ ∧
    ∀ r ∈ db.items, r.id ≠ db.nextItemId := by
  constructor
  · simp [Storage.AddToCart, noFailures, hc]
  · intro r hr
    exact ne_of_lt (hfresh r hr)

/-- C5 witness: adding apple with quantity 3 to the existing cart 1. -/
theorem c5_add_witness :
    (Storage.AddToCart .ok dbOneCart noFailures 1 itemApple).result = .ok ⟨1, 1, "apple", 3⟩ :=
  (c5_add_success dbOneCart 1 itemApple (by decide) (by decide) (by decide)
    (fun r hr => absurd hr (by simp [dbOneCart]))).1

/-- C6: from the freshly migrated state, CreateCart yields cart 1,
AddToCart with product apple and quantity 3 yields item 1 in cart 1,
and ViewCart then returns the cart with exactly that one item. -/
theorem c6_roundtrip :
    (Storage.CreateCart .ok dbEmpty noFailures).result = .ok ⟨1, []⟩ ∧
    (Storage.AddToCart .ok (Storage.CreateCart .ok dbEmpty noFailures).db noFailures 1
        itemApple).result = .ok ⟨1, 1, "apple", 3⟩ ∧
    (Storage.ViewCart .ok
        (Storage.AddToCart .ok (Storage.CreateCart .ok dbEmpty noFailures).db noFailures 1
          itemApple).db noFailures 1).result = .ok ⟨1, [⟨1, 1, "apple", 3⟩]⟩ := by
  decide

/-- C2: AddToCart and RemoveFromCart are all-or-nothing with respect to
the stored rows, for every context, failure injection and input: any
error exit (in particular an item-insert failure after a successful
cart-existence check) leaves the cart, item and link tables exactly as
they were, and a success lands every write of the operation. -/
theorem c2_transaction_atomic (ctx : Ctx) (db : DB) (fl : Failures)
    (cartId itemId : Int) (item : CartItem) :
    (∀ e, (Storage.AddToCart ctx db fl cartId item).result = .error e →
        (Storage.AddToCart ctx db fl cartId item).db.carts = db.carts ∧
        (Storage.AddToCart ctx db fl cartId item).db.items = db.items ∧
        (Storage.AddToCart ctx db fl cartId item).db.links = db.links) ∧
    (∀ e, (Storage.RemoveFromCart ctx db fl cartId itemId).result = .error e →
        (Storage.RemoveFromCart ctx db fl cartId itemId).db.carts = db.carts ∧
        (Storage.RemoveFromCart ctx db fl cartId itemId).db.items = db.items ∧
        (Storage.RemoveFromCart ctx db fl cartId itemId).db.links = db.links) ∧
    (∀ ci, (Storage.AddToCart ctx db fl cartId item).result = .ok ci →
        ci = ⟨db.nextItemId, cartId, item.product, item.quantity⟩ ∧
        (Storage.AddToCart ctx db fl cartId item).db.items
          = db.items ++ [⟨db.nextItemId, item.product, item.quantity⟩] ∧
        (Storage.AddToCart ctx db fl cartId item).db.links
          = db.links ++ [⟨cartId, db.nextItemId⟩]) ∧
    (∀ u : Unit, (Storage.RemoveFromCart ctx db fl cartId itemId).result = .ok u →
        (Storage.RemoveFromCart ctx db fl cartId itemId).db.links
          = db.links.filter (fun l => !(l.cart_id == cartId && l.item_id == itemId)) ∧
        (Storage.RemoveFromCart ctx db fl cartId itemId).db.items
          = db.items.filter (fun r => !(r.id == itemId))) := by
  refine ⟨?_, ?_, ?_, ?_⟩ <;> intro x h <;> cases ctx <;>
    first
      | (simp only [Storage.AddToCart, Storage.RemoveFromCart] at h ⊢ <;>
          split_ifs at h ⊢ <;> simp_all)
      | simp_all [Storage.AddToCart, Storage.RemoveFromCart]

/-- C2 witness: with the item insert failing after the existence check
on the existing cart 1, AddToCart reports an error and the item table
is exactly the pre-call one. -/
theorem c2_transaction_witness :
    (Storage.AddToCart .ok dbOneCart flItemInsertFail 1 itemApple).db.carts = dbOneCart.carts ∧
    (Storage.AddToCart .ok dbOneCart flItemInsertFail 1 itemApple).db.items = dbOneCart.items ∧
    (Storage.AddToCart .ok dbOneCart flItemInsertFail 1 itemApple).db.links = dbOneCart.links :=
  (c2_transaction_atomic .ok dbOneCart flItemInsertFail 1 5 itemApple).1
    [.other "insert item failed"] (by decide)

/-- C4 counterexample: on a healthy run that removes item 2 from its own
cart 9, the transaction issues a DELETE on the cart_item link table in
addition to the four steps the claim lists, so the operation does not
perform exactly the claimed steps (and its item query merely selects the
item's own id, resolving no owning cart). -/
theorem c4_steps_counterexample :
    (Storage.RemoveFromCart .ok dbCross noFailures 9 2).stmts =
      [.begin, .selectCartExists, .selectItemExists, .deleteLink, .deleteItem, .commit] ∧
    Stmt.deleteLink ∈ (Storage.RemoveFromCart .ok dbCross noFailures 9 2).stmts ∧
    (Storage.RemoveFromCart .ok dbCross noFailures 9 2).stmts ≠
      [.begin, .selectCartExists, .selectItemExists, .deleteItem, .commit] := by
  decide

/-- C4: on a healthy run RemoveFromCart performs, in one transaction:
the cart-existence check (NotFound on zero rows), the item-existence
check on the item's own id only (NotFound on zero rows), a delete of the
matching cart_item link row, a delete of the item row, and the commit. -/
theorem c4_remove_steps (db : DB) (cartId itemId : Int) :
    (cartId ∉ db.carts →
      Storage.RemoveFromCart .ok db noFailures cartId itemId =
        ⟨.error [.dbNotFound], db, [.begin, .selectCartExists, .rollback]⟩) ∧
    (cartId ∈ db.carts → db.items.any (fun r => r.id == itemId) = false →
      Storage.RemoveFromCart .ok db noFailures cartId itemId =
        ⟨.error [.dbNotFound], db,
          [.begin, .selectCartExists, .selectItemExists, .rollback]⟩) ∧
    (cartId ∈ db.carts → db.items.any (fun r => r.id == itemId) = true →
      Storage.RemoveFromCart .ok db noFailures cartId itemId =
        ⟨.ok (),
          { db with
              links := db.links.filter
                (fun l => !(l.cart_id == cartId && l.item_id == itemId)),
              items := db.items.filter (fun r => !(r.id == itemId)) },
          [.begin, .selectCartExists, .selectItemExists, .deleteLink, .deleteItem,
            .commit]⟩) := by
  refine ⟨?_, ?_, ?_⟩ <;> intro h1 <;>
    first
      | (intro h2; simp [Storage.RemoveFromCart, noFailures, h1, h2])
      | simp [Storage.RemoveFromCart, noFailures, h1]

/-- C4 witness: the amended success case on cart 9 and its item 2. -/
theorem c4_remove_witness :
    Storage.RemoveFromCart .ok dbCross noFailures 9 2 =
      ⟨.ok (),
        { dbCross with
            links := dbCross.links.filter (fun l => !(l.cart_id == 9 && l.item_id == 2)),
            items := dbCross.items.filter (fun r => !(r.id == 2)) },
        [.begin, .selectCartExists, .selectItemExists, .deleteLink, .deleteItem,
          .commit]⟩ :=
  (c4_remove_steps dbCross 9 2).2.2 (by decide) (by decide)

/-- C9 counterexample, both failing clauses of the claim at concrete
inputs: the string carts/5, which does not start with a slash and so has
none of the three claimed path forms, is nevertheless accepted, because
the parser first trims leading and trailing slashes; and the five-plus-
segment input /carts/1/items/2/x fails with the message wrong url
format, which contains no slash at all and hence describes no expected
path shape. -/
theorem c9_trim_counterexample :
    (ParseCartPath "carts/5" = .ok ⟨5, 0⟩ ∧ "carts/5".toList.head? = some 'c') ∧
    (ParseCartPath "/carts/1/items/2/x" = .error "wrong url format" ∧
      "wrong url format".toList.all (fun ch => ch != '/') = true) := by
  decide

/-- C9: ParseCartPath succeeds exactly on strings whose slash-separated
segments, after trimming leading and trailing slashes, are of one of the
three forms carts/id, carts/id/items, carts/id/items/id with the id
segments parsing as integers, and it returns exactly those integers
(with ItemId zero when absent).  Every failure returns the fixed message
of its branch: a wrong literal segment in a two-, three- or four-segment
input yields the message naming the expected shape for that length; a
non-numeric id segment yields invalid cartId (or itemId), must be int;
any other segment count yields wrong url format.  The function is
pure. -/
theorem c9_parse_path (s : String) (c i : Int) :
    (ParseCartPath s = .ok ⟨c, i⟩ ↔
      ((∃ cs, goSplitSlashes (goTrimSlashes s) = ["carts", cs] ∧
          goAtoi cs = some c ∧ i = 0) ∨
       (∃ cs, goSplitSlashes (goTrimSlashes s) = ["carts", cs, "items"] ∧
          goAtoi cs = some c ∧ i = 0) ∨
       (∃ cs ds, goSplitSlashes (goTrimSlashes s) = ["carts", cs, "items", ds] ∧
          goAtoi cs = some c ∧ goAtoi ds = some i))) ∧
    ((goSplitSlashes (goTrimSlashes s)).length < 2 ∨
        4 < (goSplitSlashes (goTrimSlashes s)).length →
      ParseCartPath s = .error "wrong url format") ∧
    (∀ p0 p1, goSplitSlashes (goTrimSlashes s) = [p0, p1] → p0 ≠ "carts" →
      ParseCartPath s = .error "invalid path, expected /carts/\x7bcartId\x7d") ∧
    (∀ p1, goSplitSlashes (goTrimSlashes s) = ["carts", p1] → goAtoi p1 = none →
      ParseCartPath s = .error "invalid cartId, must be int") ∧
    (∀ p0 p1 p2, goSplitSlashes (goTrimSlashes s) = [p0, p1, p2] →
        p0 ≠ "carts" ∨ p2 ≠ "items" →
      ParseCartPath s = .error "invalid path, expected /carts/\x7bcartId\x7d/items") ∧
    (∀ p1, goSplitSlashes (goTrimSlashes s) = ["carts", p1, "items"] → goAtoi p1 = none →
      ParseCartPath s = .error "invalid cartId, must be int") ∧
    (∀ p0 p1 p2 p3, goSplitSlashes (goTrimSlashes s) = [p0, p1, p2, p3] →
        p0 ≠ "carts" ∨ p2 ≠ "items" →
      ParseCartPath s
        = .error "invalid path, expected /carts/\x7bcartId\x7d/items/\x7bitemId\x7d") ∧
    (∀ p1 p3, goSplitSlashes (goTrimSlashes s) = ["carts", p1, "items", p3] →
        goAtoi p1 = none →
      ParseCartPath s = .error "invalid cartId, must be int") ∧
    (∀ p1 p3 n, goSplitSlashes (goTrimSlashes s) = ["carts", p1, "items", p3] →
        goAtoi p1 = some n → goAtoi p3 = none →
      ParseCartPath s = .error "invalid itemId, must be int") := by
  refine ⟨?_, ?_, ?_, ?_, ?_, ?_, ?_, ?_, ?_⟩
  · rcases h : goSplitSlashes (goTrimSlashes s) with
        _ | ⟨p0, _ | ⟨p1, _ | ⟨p2, _ | ⟨p3, _ | ⟨p4, rest⟩⟩⟩⟩⟩ <;>
      simp only [ParseCartPath, h]
    · simp
    · simp
    · by_cases hc0 : p0 = "carts"
      · subst hc0
        rw [if_neg (by decide : ¬(("carts" : String) ≠ "carts"))]
        rcases hA : goAtoi p1 with _ | n <;> simp [hA] <;> omega
      · simp [hc0]
    · by_cases hc0 : p0 = "carts"
      · subst hc0
        by_cases hc2 : p2 = "items"
        · subst hc2
          rw [if_neg
            (by decide : ¬(("carts" : String) ≠ "carts" ∨ ("items" : String) ≠ "items"))]
          rcases hA : goAtoi p1 with _ | n <;> simp [hA] <;> omega
        · simp [hc2]
      · simp [hc0]
    · by_cases hc0 : p0 = "carts"
      · subst hc0
        by_cases hc2 : p2 = "items"
        · subst hc2
          rw [if_neg
            (by decide : ¬(("carts" : String) ≠ "carts" ∨ ("items" : String) ≠ "items"))]
          rcases hA : goAtoi p1 with _ | n <;>
            rcases hB : goAtoi p3 with _ | m <;> simp [hA, hB] <;> try omega
          constructor
          · rintro ⟨rfl, rfl⟩
            exact ⟨p1, p3, ⟨rfl, rfl⟩, hA, hB⟩
          · rintro ⟨cs, ds, ⟨rfl, rfl⟩, h1, h2⟩
            rw [hA] at h1
            rw [hB] at h2
            exact ⟨Option.some.inj h1, Option.some.inj h2⟩
        · simp [hc2]
      · simp [hc0]
    · simp
  · intro hlen
    rcases h : goSplitSlashes (goTrimSlashes s) with
        _ | ⟨p0, _ | ⟨p1, _ | ⟨p2, _ | ⟨p3, _ | ⟨p4, rest⟩⟩⟩⟩⟩ <;>
      simp only [ParseCartPath, h] <;>
      first
        | rfl
        | (rw [h] at hlen
           simp only [List.length_cons, List.length_nil] at hlen
           omega)
  · intro p0 p1 h hp0
    simp only [ParseCartPath, h]
    rw [if_pos hp0]
  · intro p1 h hA
    simp only [ParseCartPath, h]
    rw [if_neg (by decide : ¬(("carts" : String) ≠ "carts"))]
    simp [hA]
  · intro p0 p1 p2 h hcond
    simp only [ParseCartPath, h]
    rw [if_pos hcond]
  · intro p1 h hA
    simp only [ParseCartPath, h]
    rw [if_neg
      (by decide : ¬(("carts" : String) ≠ "carts" ∨ ("items" : String) ≠ "items"))]
    simp [hA]
  · intro p0 p1 p2 p3 h hcond
    simp only [ParseCartPath, h]
    rw [if_pos hcond]
  · intro p1 p3 h hA
    simp only [ParseCartPath, h]
    rw [if_neg
      (by decide : ¬(("carts" : String) ≠ "carts" ∨ ("items" : String) ≠ "items"))]
    simp [hA]
  · intro p1 p3 n h hA hB
    simp only [ParseCartPath, h]
    rw [if_neg
      (by decide : ¬(("carts" : String) ≠ "carts" ∨ ("items" : String) ≠ "items"))]
    simp [hA, hB]

/-- C9 witness: the amended characterization at the canonical
three-segment path /carts/12/items, and the wrong url format branch at a
five-segment input. -/
theorem c9_parse_witness :
    ParseCartPath "/carts/12/items" = .ok ⟨12, 0⟩ ∧
    ParseCartPath "/a/b/c/d/e" = .error "wrong url format" :=
  ⟨(c9_parse_path "/carts/12/items" 12 0).1.mpr
      (Or.inr (Or.inl ⟨"12", by decide, by decide, rfl⟩)),
   (c9_parse_path "/a/b/c/d/e" 0 0).2.1 (by decide)⟩

/-- C10: for an existing cart and an existing item that is not linked to
that cart, RemoveFromCart does not fail with NotFound — ownership is
never checked — and on a healthy run it succeeds, deletes the item row
(which belonged to a different cart) and leaves the link table as it
was. -/
theorem c10_cross_cart_remove (db : DB) (c i : Int)
    (hc : c ∈ db.carts) (hi : db.items.any (fun r => r.id == i) = true)
    (hnl : ∀ l ∈ db.links, ¬(l.cart_id = c ∧ l.item_id = i)) :
    (Storage.RemoveFromCart .ok db noFailures c i).result = .ok () ∧
    (Storage.RemoveFromCart .ok db noFailures c i).db.items
      = db.items.filter (fun r => !(r.id == i)) ∧
    (∀ r ∈ (Storage.RemoveFromCart .ok db noFailures c i).db.items, r.id ≠ i) ∧
    (Storage.RemoveFromCart .ok db noFailures c i).db.links = db.links := by
  have hred : Storage.RemoveFromCart .ok db noFailures c i =
      ⟨.ok (),
        { db with
            links := db.links.filter (fun l => !(l.cart_id == c && l.item_id == i)),
            items := db.items.filter (fun r => !(r.id == i)) },
        [.begin, .selectCartExists, .selectItemExists, .deleteLink, .deleteItem,
          .commit]⟩ := by
    simp [Storage.RemoveFromCart, noFailures, hc, hi]
  refine ⟨by rw [hred], by rw [hred], ?_, ?_⟩
  · rw [hred]
    intro r hr
    simp only [List.mem_filter, Bool.not_eq_true', beq_eq_false_iff_ne] at hr
    exact hr.2
  · rw [hred]
    show db.links.filter _ = db.links
    refine List.filter_eq_self.mpr ?_
    intro l hl
    have := hnl l hl
    simp only [Bool.not_eq_true', Bool.and_eq_false_iff, beq_eq_false_iff_ne]
    by_cases h1 : l.cart_id = c
    · exact Or.inr (fun h2 => this ⟨h1, h2⟩)
    · exact Or.inl h1

/-- C7: handleDatabaseError classifies every storage error with the
fixed precedence cancellation before deadline before not-found before
generic passthrough, and every one of the four service methods reports a
storage failure exactly as the op-tagged result of that single shared
helper. -/
theorem c7_error_classification :
    (∀ e : GoErr, errIs e .canceled → handleDatabaseError e = .contextCanceled) ∧
    (∀ e : GoErr, ¬ errIs e .canceled → errIs e .deadlineExceeded →
        handleDatabaseError e = .deadlineExceeded) ∧
    (∀ e : GoErr, ¬ errIs e .canceled → ¬ errIs e .deadlineExceeded → errIs e .dbNotFound →
        handleDatabaseError e = .notFound) ∧
    (∀ e : GoErr, ¬ errIs e .canceled → ¬ errIs e .deadlineExceeded → ¬ errIs e .dbNotFound →
        handleDatabaseError e = .passthrough e) ∧
    (∀ ctx db fl e, (Storage.CreateCart ctx db fl).result = .error e →
        (CartApiService.CreateCart ctx db fl).result
          = .error ("service.cartapi.CreateCart", handleDatabaseError e)) ∧
    (∀ ctx db fl cartId item e, (Storage.AddToCart ctx db fl cartId item).result = .error e →
        (CartApiService.AddToCart ctx db fl cartId item).result
          = .error ("service.cartapi.AddToCart", handleDatabaseError e)) ∧
    (∀ ctx db fl cartId itemId e,
        (Storage.RemoveFromCart ctx db fl cartId itemId).result = .error e →
        (CartApiService.RemoveFromCart ctx db fl cartId itemId).result
          = .error ("service.cartapi.RemoveFromCart", handleDatabaseError e)) ∧
    (∀ ctx db fl cartId e, (Storage.ViewCart ctx db fl cartId).result = .error e →
        (CartApiService.ViewCart ctx db fl cartId).result
          = .error ("service.cartapi.ViewCart", handleDatabaseError e)) := by
  refine ⟨?_, ?_, ?_, ?_, ?_, ?_, ?_, ?_⟩
  · intro e h; simp [handleDatabaseError, h]
  · intro e h1 h2; simp [handleDatabaseError, h1, h2]
  · intro e h1 h2 h3; simp [handleDatabaseError, h1, h2, h3]
  · intro e h1 h2 h3; simp [handleDatabaseError, h1, h2, h3]
  · intro ctx db fl e h
    cases ctx
    · simp [CartApiService.CreateCart, handleContextError, h]
    · simp only [Storage.CreateCart] at h
      injection h with h
      subst h
      simp [CartApiService.CreateCart, handleContextError, handleDatabaseError, errIs]
    · simp only [Storage.CreateCart] at h
      injection h with h
      subst h
      simp [CartApiService.CreateCart, handleContextError, handleDatabaseError, errIs]
  · intro ctx db fl cartId item e h
    cases ctx
    · simp [CartApiService.AddToCart, handleContextError, h]
    · simp only [Storage.AddToCart] at h
      injection h with h
      subst h
      simp [CartApiService.AddToCart, handleContextError, handleDatabaseError, errIs]
    · simp only [Storage.AddToCart] at h
      injection h with h
      subst h
      simp [CartApiService.AddToCart, handleContextError, handleDatabaseError, errIs]
  · intro ctx db fl cartId itemId e h
    cases ctx
    · simp [CartApiService.RemoveFromCart, handleContextError, h]
    · simp only [Storage.RemoveFromCart] at h
      injection h with h
      subst h
      simp [CartApiService.RemoveFromCart, handleContextError, handleDatabaseError, errIs]
    · simp only [Storage.RemoveFromCart] at h
      injection h with h
      subst h
      simp [CartApiService.RemoveFromCart, handleContextError, handleDatabaseError, errIs]
  · intro ctx db fl cartId e h
    cases ctx
    · simp [CartApiService.ViewCart, handleContextError, h]
    · simp only [Storage.ViewCart] at h
      injection h with h
      subst h
      simp [CartApiService.ViewCart, handleContextError, handleDatabaseError, errIs]
    · simp only [Storage.ViewCart] at h
      injection h with h
      subst h
      simp [CartApiService.ViewCart, handleContextError, handleDatabaseError, errIs]

/-- C7 witness: an error chain matching both the canceled and the
not-found sentinels classifies as ErrContextCanceled (cancellation takes
precedence over not-found). -/
theorem c7_precedence_witness :
    handleDatabaseError [Sentinel.canceled, Sentinel.dbNotFound]
      = ServiceErrKind.contextCanceled :=
  c7_error_classification.1 [Sentinel.canceled, Sentinel.dbNotFound] (by decide)

/-- A service stub that accepts every AddToCart call, standing in for
the CartItemService dependency of the handler in concrete runs. -/
def svcStub : Int → CartItem → Except ServiceErr CartItem := fun _ it => .ok it

/-- C8: the AddToCart handler returns 400 without invoking the service
when the cartId segment is not a positive integer, when the body fails
to read or decode, when the decoded product is empty, or when the
decoded quantity is not positive; when every validation passes it
invokes the service and answers 201 with the created item on success. -/
theorem c8_handler_validation (cartIdStr : String) (body : Option CartItem)
    (svc : Int → CartItem → Except ServiceErr CartItem) :
    ((∃ msg, parseCartID cartIdStr = .error msg) →
        Handler.AddToCart cartIdStr body svc = ⟨400, false, none⟩) ∧
    (∀ cId, parseCartID cartIdStr = .ok cId → body = none →
        Handler.AddToCart cartIdStr body svc = ⟨400, false, none⟩) ∧
    (∀ cId item, parseCartID cartIdStr = .ok cId → body = some item → item.product = "" →
        Handler.AddToCart cartIdStr body svc = ⟨400, false, none⟩) ∧
    (∀ cId item, parseCartID cartIdStr = .ok cId → body = some item → item.product ≠ "" →
        item.quantity ≤ 0 → Handler.AddToCart cartIdStr body svc = ⟨400, false, none⟩) ∧
    (∀ cId item v, parseCartID cartIdStr = .ok cId → body = some item → item.product ≠ "" →
        0 < item.quantity → svc cId item = .ok v →
        Handler.AddToCart cartIdStr body svc = ⟨201, true, some v⟩) := by
  refine ⟨?_, ?_, ?_, ?_, ?_⟩
  · rintro ⟨msg, hmsg⟩
    simp [Handler.AddToCart, hmsg]
  · intro cId hp hb
    simp [Handler.AddToCart, hp, hb]
  · intro cId item hp hb hprod
    simp [Handler.AddToCart, hp, hb, hprod]
  · intro cId item hp hb hprod hq
    simp [Handler.AddToCart, hp, hb, hprod, hq]
  · intro cId item v hp hb hprod hq hsvc
    simp [Handler.AddToCart, hp, hb, hprod, hsvc, not_le.mpr hq]

/-- C8 witness: POST /carts/1/items with body product empty, quantity 5
is rejected with 400 and the service is never called. -/
theorem c8_handler_witness :
    Handler.AddToCart "1" (some ⟨0, 0, "", 5⟩) svcStub = ⟨400, false, none⟩ :=
  (c8_handler_validation "1" (some ⟨0, 0, "", 5⟩) svcStub).2.2.1 1 ⟨0, 0, "", 5⟩
    (by decide) rfl rfl

/-- C10 witness: cart 1 exists, item 2 exists but is linked only to cart
9; removing item 2 through cart 1 succeeds and deletes the item row. -/
theorem c10_cross_cart_witness :
    (Storage.RemoveFromCart .ok dbCross noFailures 1 2).result = .ok () ∧
    (Storage.RemoveFromCart .ok dbCross noFailures 1 2).db.links = dbCross.links :=
  ⟨(c10_cross_cart_remove dbCross 1 2 (by decide) (by decide) (by decide)).1,
   (c10_cross_cart_remove dbCross 1 2 (by decide) (by decide) (by decide)).2.2.2⟩
